import Mathlib

/-!
Verification development for the output-capture and streaming bridge of the
`python/helpers/aider.py` module: the `OutputCapture` sink, the monkey-patched
interception wrappers, the scoped stdout redirection guard
(`temporary_stdout_patch`), and the `StreamingAiderWrapper` facade.

The Python code is shallowly embedded: each stateful object becomes a Lean
structure and each method a pure function returning the updated state together
with its observable effects.  Subscriber callbacks are opaque to the sink, so a
callback is modelled by an identity (`Nat`) and a callback invocation by a
`Notification` record appended to an effect trace; exceptions raised by
callbacks are swallowed by the source, so they do not alter the state and are
not modelled.  Terminal echo (the `suppress_terminal_output = False` path,
which forwards to the saved original handler) is outside the sink and outside
every claim, and is not modelled.
-/

namespace AiderBridge

/-- Truthiness of Python `text.strip()`: true iff `text` contains at least one
non-whitespace character.  (`OutputCapture.write` and the stdout patch only
use `strip()` for its truthiness, never for its value.) -/
def strippedTruthy (s : String) : Bool :=
  s.data.any (fun ch => !ch.isWhitespace)

/-- One entry of `OutputCapture.messages`: the dict
`(type, content, timestamp)` built in `OutputCapture.write`.  The
timestamp is wall-clock noise and is dropped from the embedding. -/
structure OutputEvent where
  type : String
  content : String
deriving Repr, DecidableEq

/-- One synchronous invocation of a subscriber callback: which callback was
called, with which `(response_type, content)` arguments. -/
structure Notification where
  cb : Nat
  kind : String
  content : String
deriving Repr, DecidableEq

/-- State of an `OutputCapture` instance: the `StringIO` buffer contents, the
`messages` list, and the registered callback list.  The `threading.RLock` only
serializes the methods; each method below is one critical section. -/
structure OutputCapture where
  buffer : String
  messages : List OutputEvent
  callbacks : List Nat
deriving Repr, DecidableEq

namespace OutputCapture

/-- `OutputCapture.__init__`. -/
def init : OutputCapture := ⟨"", [], []⟩

/-- `add_callback`: appends to the callback list. -/
def add_callback (c : OutputCapture) (cb : Nat) : OutputCapture :=
  { c with callbacks := c.callbacks ++ [cb] }

/-- `remove_callback`: Python `list.remove` deletes the first occurrence,
guarded by a membership test. -/
def remove_callback (c : OutputCapture) (cb : Nat) : OutputCapture :=
  if cb ∈ c.callbacks then { c with callbacks := c.callbacks.erase cb } else c

/-- `clear_callbacks`. -/
def clear_callbacks (c : OutputCapture) : OutputCapture :=
  { c with callbacks := [] }

/-- `write(text)`: appends `text` to the buffer (`StringIO.write` returns the
number of characters written, `len(text)`); if `text.strip()` is truthy,
appends an output message and invokes every registered callback with
response type `assistant_response` and the text, in registration order.  Returns the new state,
the integer result, and the trace of callback invocations. -/
def write (c : OutputCapture) (text : String) :
    OutputCapture × Nat × List Notification :=
  let c1 : OutputCapture := { c with buffer := c.buffer ++ text }
  if strippedTruthy text then
    ({ c1 with messages := c1.messages ++ [⟨"output", text⟩] },
     text.length,
     c1.callbacks.map (fun cb => ⟨cb, "assistant_response", text⟩))
  else
    (c1, text.length, [])

/-- `get_output`: the buffer contents. -/
def get_output (c : OutputCapture) : String := c.buffer

/-- `get_messages`: a copy of the messages list. -/
def get_messages (c : OutputCapture) : List OutputEvent := c.messages

/-- `clear`: fresh buffer and message list; callbacks are not touched. -/
def clear (c : OutputCapture) : OutputCapture :=
  { c with buffer := "", messages := [] }

end OutputCapture

/-- A sequence of `write` calls applied to a sink, keeping only the state. -/
def writeSeq (c : OutputCapture) (texts : List String) : OutputCapture :=
  texts.foldl (fun acc t => (acc.write t).1) c

/-- `write` without the integer result: the patched emission wrappers call
`output_capture.write(...)` and discard its return value, swallowing any
exception (in the embedding `write` is total, so nothing is swallowed). -/
def captureWrite (c : OutputCapture) (text : String) :
    OutputCapture × List Notification :=
  let r := c.write text
  (r.1, r.2.2)

/-!
## Interception wrappers (`monkey_patch_io_for_capture`)

Each `patched_*` closure reads the module-level flag
`_stdout_patch_mode_active`; the flag is passed here as the `suppressed`
argument.  Each wrapper returns the updated sink state and the callback
invocations triggered through `write`.
-/

/-- `patched_assistant_output(message)`: captures `str(message)` unless stdout
patching is active. -/
def patched_assistant_output (suppressed : Bool) (c : OutputCapture)
    (message : String) : OutputCapture × List Notification :=
  if suppressed then (c, []) else captureWrite c message

/-- `patched_tool_output(*messages)`: joins the arguments with a space and
captures the result when it is non-empty, unless stdout patching is active. -/
def patched_tool_output (suppressed : Bool) (c : OutputCapture)
    (messages : List String) : OutputCapture × List Notification :=
  if suppressed then (c, [])
  else
    let message_text := String.intercalate " " messages
    if message_text ≠ "" then captureWrite c message_text else (c, [])

/-- `patched_tool_error(message)`: captures `"ERROR: " + message` unless stdout
patching is active. -/
def patched_tool_error (suppressed : Bool) (c : OutputCapture)
    (message : String) : OutputCapture × List Notification :=
  if suppressed then (c, []) else captureWrite c ("ERROR: " ++ message)

/-- `patched_tool_warning(message)`: captures `"WARNING: " + message` unless
stdout patching is active. -/
def patched_tool_warning (suppressed : Bool) (c : OutputCapture)
    (message : String) : OutputCapture × List Notification :=
  if suppressed then (c, []) else captureWrite c ("WARNING: " ++ message)

/-- `patched_ai_output(content)`: captures `str(content)` unless stdout
patching is active. -/
def patched_ai_output (suppressed : Bool) (c : OutputCapture)
    (content : String) : OutputCapture × List Notification :=
  if suppressed then (c, []) else captureWrite c content

/-- `patched_console_print(*args)`: joins the positional arguments with a
space and captures the result when `args` is non-empty.  Unlike the other
wrappers, the source contains no `_stdout_patch_mode_active` check here: the
`suppressed` argument is ignored. -/
def patched_console_print (_suppressed : Bool) (c : OutputCapture)
    (args : List String) : OutputCapture × List Notification :=
  if args ≠ [] then captureWrite c (String.intercalate " " args) else (c, [])

/-!
## Scoped stdout redirection guard (`temporary_stdout_patch`)

Inside the `with` block, `sys.stdout.write` is the closure
`patched_stdout_write` below.  `active` is the module-level flag
`_stdout_patching_active` read under the lock at entry; the closure sets it for
the duration of its own `output_capture.write` call and always clears it again,
so the post-state flag is `false` on every path and is not returned.
-/

/-- One call of the replacement stdout handler of the guard: when the recursion flag
is already set, returns the byte count immediately without touching the sink;
otherwise captures non-empty, non-whitespace text.  Returns the new sink state,
the integer result (`len(text)` on every path), and the callback trace. -/
def patched_stdout_write (active : Bool) (c : OutputCapture) (text : String) :
    OutputCapture × Nat × List Notification :=
  if active then (c, text.length, [])
  else if text ≠ "" ∧ strippedTruthy text then
    c.write text
  else
    (c, text.length, [])

/-!
## Interception records and restoration (`monkey_patch_io_for_capture`
storage and `restore_io_methods`)

Handlers are opaque function values, tracked by identity: `Handler.orig n` is
a pre-existing bound method, the `patched*` constructors are the closures
installed by `monkey_patch_io_for_capture`.
-/

/-- Identity of a handler sitting in a dispatch slot. -/
inductive Handler
  | orig (id : Nat)
  | patchedAssistant
  | patchedToolOutput
  | patchedToolError
  | patchedToolWarning
  | patchedAiOutput
  | patchedConsolePrint
  | patchedStdout
  | patchedStderr
deriving Repr, DecidableEq

/-- The `_original_methods` dict stored on the `InputOutput` instance. -/
structure OrigMethods where
  assistant_output : Option Handler
  tool_output : Option Handler
  tool_error : Option Handler
  tool_warning : Option Handler
  ai_output : Option Handler
  console_print : Option Handler
  stdout_write : Option Handler
  stderr_write : Option Handler
deriving Repr, DecidableEq

/-- The mutable dispatch state touched by patching: the emission slots of the
`InputOutput` instance (absent attribute = `none`), its `console.print` slot
(`none` when there is no console or no `print`), the process-wide
`sys.stdout.write` / `sys.stderr.write` slots, and the `_original_methods`
attribute (`none` when the attribute is absent).  `stray_console_print` models
the attribute that a fall-through setattr of console_print would create on the
fall-through branch of `restore_io_methods` when the console has vanished. -/
structure IOWorld where
  assistant_output : Option Handler
  tool_output : Option Handler
  tool_error : Option Handler
  tool_warning : Option Handler
  ai_output : Option Handler
  has_console : Bool
  console_print : Option Handler
  stdout_write : Handler
  stderr_write : Handler
  original_methods : Option OrigMethods
  stray_console_print : Option Handler
deriving Repr, DecidableEq

/-- `monkey_patch_io_for_capture(io, capture, suppress, patch_stdout)`: reads
every original handler (`getattr(..., None)`), replaces each present one with
its wrapper, patches `console.print` when present, patches the process-wide
stdout/stderr writers only when `patch_stdout`, and stores the
`_original_methods` dict. -/
def monkey_patch_io_for_capture (io : IOWorld) (patch_stdout : Bool) :
    IOWorld :=
  let oa := io.assistant_output
  let ot := io.tool_output
  let ote := io.tool_error
  let otw := io.tool_warning
  let oai := io.ai_output
  let ocp := io.console_print
  let osw := if patch_stdout then some io.stdout_write else none
  let oew := if patch_stdout then some io.stderr_write else none
  { io with
    assistant_output := if oa.isSome then some .patchedAssistant else oa
    tool_output := if ot.isSome then some .patchedToolOutput else ot
    tool_error := if ote.isSome then some .patchedToolError else ote
    tool_warning := if otw.isSome then some .patchedToolWarning else otw
    ai_output := if oai.isSome then some .patchedAiOutput else oai
    console_print := if ocp.isSome then some .patchedConsolePrint else ocp
    stdout_write := if patch_stdout then .patchedStdout else io.stdout_write
    stderr_write := if patch_stdout then .patchedStderr else io.stderr_write
    original_methods := some ⟨oa, ot, ote, otw, oai, ocp, osw, oew⟩ }

/-- `restore_io_methods(io)`: when `_original_methods` is present, reassigns
every non-null stored handler back to its slot (`console_print` only when a
console still exists, otherwise `setattr` creates a stray attribute;
`stdout_write` / `stderr_write` go back to the process-wide slots; the rest via
`setattr`), then deletes the attribute.  Without the attribute, a no-op. -/
def restore_io_methods (io : IOWorld) : IOWorld :=
  match io.original_methods with
  | none => io
  | some m =>
    let io := match m.assistant_output with
      | some h => { io with assistant_output := some h }
      | none => io
    let io := match m.tool_output with
      | some h => { io with tool_output := some h }
      | none => io
    let io := match m.tool_error with
      | some h => { io with tool_error := some h }
      | none => io
    let io := match m.tool_warning with
      | some h => { io with tool_warning := some h }
      | none => io
    let io := match m.ai_output with
      | some h => { io with ai_output := some h }
      | none => io
    let io := match m.console_print with
      | some h =>
        if io.has_console then { io with console_print := some h }
        else { io with stray_console_print := some h }
      | none => io
    let io := match m.stdout_write with
      | some h => { io with stdout_write := h }
      | none => io
    let io := match m.stderr_write with
      | some h => { io with stderr_write := h }
      | none => io
    { io with original_methods := none }

/-!
## Streaming wrapper (`StreamingAiderWrapper`)

The third-party engine call `self.coder.run(message)` executes inside
`temporary_stdout_patch`, so every fragment the engine emits during the call
goes through `patched_stdout_write` (each top-level entry sees the recursion
flag clear).  The observable behaviour of the engine for one invocation is a
script: the list of stdout fragments it writes, followed by a normal return
of a payload or a raised exception.
-/

/-- The engine call either returns a payload or raises. -/
inductive EngineOutcome
  | ok (payload : String)
  | err (msg : String)
deriving Repr, DecidableEq

/-- Observable behaviour of one `coder.run(message)` call. -/
structure EngineScript where
  writes : List String
  outcome : EngineOutcome
deriving Repr, DecidableEq

/-- The dict returned by `run_with_capture`: `execution_time` is wall-clock
noise and is dropped. -/
structure InvocationResult where
  success : Bool
  result : Option String
  error : Option String
  captured_output : String
  messages : List OutputEvent
  model : String
deriving Repr, DecidableEq

/-- State of a `StreamingAiderWrapper`: its sink and its
`response_callbacks` list; `model` is `coder.main_model.name`. -/
structure StreamingAiderWrapper where
  model : String
  output_capture : OutputCapture
  response_callbacks : List Nat
deriving Repr, DecidableEq

/-- `add_response_callback`: appends to `response_callbacks`; nothing ever
removes entries from this list. -/
def add_response_callback (w : StreamingAiderWrapper) (cb : Nat) :
    StreamingAiderWrapper :=
  { w with response_callbacks := w.response_callbacks ++ [cb] }

/-- The stdout fragments of the engine sent one by one through
`patched_stdout_write`, accumulating the callback trace. -/
def runEngineWrites : OutputCapture → List String → OutputCapture × List Notification
  | c, [] => (c, [])
  | c, t :: ts =>
    let r := patched_stdout_write false c t
    let rest := runEngineWrites r.1 ts
    (rest.1, r.2.2 ++ rest.2)

/-- `run_with_capture(message)`: clears the sink, runs the engine under the
stdout guard, and packages an `InvocationResult`; an exception from the engine
is caught and reported as `success=False, error=str(e)` with the capture
fields read from whatever was captured before the failure.  Returns the new
wrapper state, the result dict, and the callback trace. -/
def run_with_capture (w : StreamingAiderWrapper) (script : EngineScript) :
    StreamingAiderWrapper × InvocationResult × List Notification :=
  let cap0 := w.output_capture.clear
  let r := runEngineWrites cap0 script.writes
  let w1 : StreamingAiderWrapper := { w with output_capture := r.1 }
  match script.outcome with
  | .ok payload =>
    (w1,
     { success := true, result := some payload, error := none,
       captured_output := r.1.get_output, messages := r.1.get_messages,
       model := w.model },
     r.2)
  | .err m =>
    (w1,
     { success := false, result := none, error := some m,
       captured_output := r.1.get_output, messages := r.1.get_messages,
       model := w.model },
     r.2)

/-- The `completion` notification sent to each response callback after the
engine call. -/
def completionNote (cb : Nat) : Notification :=
  ⟨cb, "completion", "Command execution completed"⟩

/-- `run_with_streaming_callback(message, response_callback)`: optionally
registers the argument via `add_response_callback`, adds every response
callback to the sink, delegates to `run_with_capture`, sends one `completion`
notification per response-callback entry, and in the `finally` block removes
each response-callback entry from the sink (first occurrence each). -/
def run_with_streaming_callback (w : StreamingAiderWrapper)
    (script : EngineScript) (response_callback : Option Nat) :
    StreamingAiderWrapper × InvocationResult × List Notification :=
  let w1 := match response_callback with
    | some cb => add_response_callback w cb
    | none => w
  let cap1 := w1.response_callbacks.foldl OutputCapture.add_callback
    w1.output_capture
  let w2 : StreamingAiderWrapper := { w1 with output_capture := cap1 }
  let r := run_with_capture w2 script
  let comp := r.1.response_callbacks.map completionNote
  let cap2 := r.1.response_callbacks.foldl OutputCapture.remove_callback
    r.1.output_capture
  ({ r.1 with output_capture := cap2 }, r.2.1, r.2.2 ++ comp)

/-- `run_with_streaming_async(message, response_callback)`: same body as
`run_with_streaming_callback`, except that `run_with_capture` runs on an
executor thread while the caller awaits; the state transitions and the
delivered notifications are the ones written out here. -/
def run_with_streaming_async (w : StreamingAiderWrapper)
    (script : EngineScript) (response_callback : Option Nat) :
    StreamingAiderWrapper × InvocationResult × List Notification :=
  let w1 := match response_callback with
    | some cb => add_response_callback w cb
    | none => w
  let cap1 := w1.response_callbacks.foldl OutputCapture.add_callback
    w1.output_capture
  let w2 : StreamingAiderWrapper := { w1 with output_capture := cap1 }
  let r := run_with_capture w2 script
  let comp := r.1.response_callbacks.map completionNote
  let cap2 := r.1.response_callbacks.foldl OutputCapture.remove_callback
    r.1.output_capture
  ({ r.1 with output_capture := cap2 }, r.2.1, r.2.2 ++ comp)

/-- The response-callback list in force during one
`run_with_streaming_callback` / `run_with_streaming_async` invocation. -/
def regList (w : StreamingAiderWrapper) (response_callback : Option Nat) :
    List Nat :=
  match response_callback with
  | some cb => w.response_callbacks ++ [cb]
  | none => w.response_callbacks

/-- Concatenation of the `content` fields of a list of events. -/
def concatContents : List OutputEvent → String
  | [] => ""
  | e :: es => e.content ++ concatContents es

/-- A concrete `InputOutput` dispatch state used to instantiate the
restoration theorem: `tool_output` and `ai_output` are absent (partial
installation), the console exists, the record attribute is absent. -/
def ioSample : IOWorld :=
  { assistant_output := some (.orig 1)
    tool_output := none
    tool_error := some (.orig 2)
    tool_warning := some (.orig 3)
    ai_output := none
    has_console := true
    console_print := some (.orig 4)
    stdout_write := .orig 5
    stderr_write := .orig 6
    original_methods := none
    stray_console_print := none }

/-! ## Helper lemmas -/

lemma strippedTruthy_ne_empty {t : String} (h : strippedTruthy t = true) :
    t ≠ "" := by
  intro he
  rw [he] at h
  exact absurd h (by decide)

lemma write_buffer (c : OutputCapture) (t : String) :
    (c.write t).1.buffer = c.buffer ++ t := by
  unfold OutputCapture.write
  by_cases h : strippedTruthy t = true <;> simp [h]

lemma write_callbacks (c : OutputCapture) (t : String) :
    (c.write t).1.callbacks = c.callbacks := by
  unfold OutputCapture.write
  by_cases h : strippedTruthy t = true <;> simp [h]

lemma write_len (c : OutputCapture) (t : String) :
    (c.write t).2.1 = t.length := by
  unfold OutputCapture.write
  by_cases h : strippedTruthy t = true <;> simp [h]

lemma write_messages_pos (c : OutputCapture) {t : String}
    (h : strippedTruthy t = true) :
    (c.write t).1.messages = c.messages ++ [⟨"output", t⟩] := by
  simp [OutputCapture.write, h]

lemma write_messages_neg (c : OutputCapture) {t : String}
    (h : strippedTruthy t = false) :
    (c.write t).1.messages = c.messages := by
  simp [OutputCapture.write, h]

lemma write_notes_pos (c : OutputCapture) {t : String}
    (h : strippedTruthy t = true) :
    (c.write t).2.2 = c.callbacks.map
      (fun cb => (⟨cb, "assistant_response", t⟩ : Notification)) := by
  simp [OutputCapture.write, h]

lemma write_notes_neg (c : OutputCapture) {t : String}
    (h : strippedTruthy t = false) :
    (c.write t).2.2 = [] := by
  simp [OutputCapture.write, h]

lemma stdout_write_false_pos (c : OutputCapture) {t : String}
    (h : strippedTruthy t = true) :
    patched_stdout_write false c t = c.write t := by
  simp [patched_stdout_write, h, strippedTruthy_ne_empty h]

lemma stdout_write_false_neg (c : OutputCapture) {t : String}
    (h : strippedTruthy t = false) :
    patched_stdout_write false c t = (c, t.length, []) := by
  simp [patched_stdout_write, h]

lemma runEngineWrites_callbacks (ts : List String) : ∀ c : OutputCapture,
    (runEngineWrites c ts).1.callbacks = c.callbacks := by
  induction ts with
  | nil => intro c; rfl
  | cons t ts ih =>
    intro c
    show (runEngineWrites (patched_stdout_write false c t).1 ts).1.callbacks
      = c.callbacks
    rw [ih]
    cases h : strippedTruthy t with
    | true => rw [stdout_write_false_pos c h, write_callbacks]
    | false => rw [stdout_write_false_neg c h]

lemma runEngineWrites_notes (ts : List String) : ∀ c : OutputCapture,
    (runEngineWrites c ts).2
      = (ts.filter strippedTruthy).flatMap
          (fun t => c.callbacks.map
            (fun cb => (⟨cb, "assistant_response", t⟩ : Notification))) := by
  induction ts with
  | nil => intro c; rfl
  | cons t ts ih =>
    intro c
    show (patched_stdout_write false c t).2.2
        ++ (runEngineWrites (patched_stdout_write false c t).1 ts).2 = _
    cases h : strippedTruthy t with
    | true =>
      rw [stdout_write_false_pos c h, ih, write_notes_pos c h]
      simp [List.filter_cons, h, write_callbacks]
    | false =>
      rw [stdout_write_false_neg c h, ih]
      simp [List.filter_cons, h]

lemma foldl_add_callback (rcbs : List Nat) : ∀ c : OutputCapture,
    rcbs.foldl OutputCapture.add_callback c
      = { c with callbacks := c.callbacks ++ rcbs } := by
  induction rcbs with
  | nil => intro c; simp
  | cons x xs ih =>
    intro c
    rw [List.foldl_cons, ih]
    simp [OutputCapture.add_callback]

lemma remove_callback_eq (c : OutputCapture) (x : Nat) :
    c.remove_callback x = { c with callbacks := c.callbacks.erase x } := by
  unfold OutputCapture.remove_callback
  by_cases h : x ∈ c.callbacks
  · simp [h]
  · simp [h, List.erase_of_not_mem h]

lemma foldl_remove_callback (rcbs : List Nat) : ∀ c : OutputCapture,
    rcbs.foldl OutputCapture.remove_callback c
      = { c with callbacks := rcbs.foldl (fun l x => l.erase x) c.callbacks } := by
  induction rcbs with
  | nil => intro c; simp
  | cons x xs ih =>
    intro c
    rw [List.foldl_cons, remove_callback_eq, ih]
    simp

lemma run_with_capture_fst (w : StreamingAiderWrapper) (s : EngineScript) :
    (run_with_capture w s).1
      = { w with output_capture :=
            (runEngineWrites w.output_capture.clear s.writes).1 } := by
  obtain ⟨ws, oc⟩ := s
  cases oc <;> rfl

lemma run_with_capture_notes (w : StreamingAiderWrapper) (s : EngineScript) :
    (run_with_capture w s).2.2
      = (runEngineWrites w.output_capture.clear s.writes).2 := by
  obtain ⟨ws, oc⟩ := s
  cases oc <;> rfl

lemma run_with_streaming_async_eq (w : StreamingAiderWrapper)
    (s : EngineScript) (rcb : Option Nat) :
    run_with_streaming_async w s rcb = run_with_streaming_callback w s rcb := rfl

lemma streaming_components (w : StreamingAiderWrapper) (s : EngineScript)
    (rcb : Option Nat) :
    (run_with_streaming_callback w s rcb).1.response_callbacks = regList w rcb ∧
    (run_with_streaming_callback w s rcb).1.output_capture.callbacks
      = (regList w rcb).foldl (fun l x => l.erase x)
          (w.output_capture.callbacks ++ regList w rcb) ∧
    (run_with_streaming_callback w s rcb).2.2
      = (s.writes.filter strippedTruthy).flatMap
          (fun t => (w.output_capture.callbacks ++ regList w rcb).map
            (fun cb => (⟨cb, "assistant_response", t⟩ : Notification)))
        ++ (regList w rcb).map completionNote := by
  cases rcb <;>
    refine ⟨?_, ?_, ?_⟩ <;>
    simp [run_with_streaming_callback, regList, add_response_callback,
      foldl_add_callback, run_with_capture_fst, run_with_capture_notes,
      runEngineWrites_callbacks, runEngineWrites_notes, foldl_remove_callback,
      OutputCapture.clear, OutputCapture.add_callback, remove_callback_eq,
      List.foldl_append, List.map_append, List.append_assoc]

lemma restore_of_none {w : IOWorld} (h : w.original_methods = none) :
    restore_io_methods w = w := by
  simp [restore_io_methods, h]

lemma concatContents_append (xs ys : List OutputEvent) :
    concatContents (xs ++ ys) = concatContents xs ++ concatContents ys := by
  induction xs with
  | nil => simp [concatContents, String.empty_append]
  | cons e es ih => simp [concatContents, ih, String.append_assoc]

lemma writeSeq_cons (c : OutputCapture) (t : String) (ts : List String) :
    writeSeq c (t :: ts) = writeSeq (c.write t).1 ts := rfl

lemma writeSeq_inv (texts : List String) : ∀ c : OutputCapture,
    (∀ t ∈ texts, t = "" ∨ strippedTruthy t = true) →
    c.buffer = concatContents (c.messages.filter (fun e => e.type == "output")) →
    (writeSeq c texts).buffer
      = concatContents ((writeSeq c texts).messages.filter
          (fun e => e.type == "output")) := by
  induction texts with
  | nil => intro c _ hc; exact hc
  | cons t ts ih =>
    intro c hts hc
    rw [writeSeq_cons]
    refine ih (c.write t).1 (fun x hx => hts x (List.mem_cons_of_mem t hx)) ?_
    rcases hts t (List.mem_cons_self t ts) with he | hp
    · subst he
      rw [write_buffer, write_messages_neg c (by decide), String.append_empty]
      exact hc
    · rw [write_buffer, write_messages_pos c hp, List.filter_append,
        concatContents_append, hc]
      simp [concatContents, String.append_empty]

/-! ## Claim theorems -/

/-- C1 counterexample: a single `write` of a pure-whitespace, non-empty text
lands in the buffer but produces no event, so `getOutput()` differs from the
concatenation of the output-event contents. -/
theorem C1_counterexample :
    ¬ ((writeSeq OutputCapture.init [" "]).get_output
        = concatContents (((writeSeq OutputCapture.init [" "]).get_messages).filter
            (fun e => e.type == "output"))) := by
  decide

/-- C1 (amended): for every sequence of `write(text)` calls on a fresh sink in
which each text is empty or contains a non-whitespace character, the string
returned by `getOutput()` equals the concatenation of the content fields of
all output-kind events returned by `getEvents()`, in buffer order. -/
theorem C1_theorem (cbs : List Nat) (texts : List String)
    (h : ∀ t ∈ texts, t = "" ∨ strippedTruthy t = true) :
    (writeSeq ⟨"", [], cbs⟩ texts).get_output
      = concatContents (((writeSeq ⟨"", [], cbs⟩ texts).get_messages).filter
          (fun e => e.type == "output")) := by
  exact writeSeq_inv texts ⟨"", [], cbs⟩ h rfl

/-- C1 witness: the amended invariant at a concrete write sequence. -/
theorem C1_witness :
    (writeSeq ⟨"", [], [0]⟩ ["ab", "", "c"]).get_output
      = concatContents (((writeSeq ⟨"", [], [0]⟩ ["ab", "", "c"]).get_messages).filter
          (fun e => e.type == "output")) :=
  C1_theorem [0] ["ab", "", "c"] (by decide)

/-- C2 counterexample: the wrapper installed for console-print does not check
the suppression flag; with the flag set it still forwards to the sink, so the
sink state changes. -/
theorem C2_counterexample :
    (patched_console_print true OutputCapture.init ["hi"]).1
      ≠ OutputCapture.init := by
  decide

/-- C2 (amended): the wrappers for assistant-output, tool-output, tool-warning,
tool-error (and ai-output) check the suppression flag and forward nothing to
the sink while it is true; the console-print wrapper ignores the flag and
forwards its non-empty argument list to the sink regardless, so a console-print
message emitted while the redirection guard is active can be captured twice. -/
theorem C2_theorem (c : OutputCapture) (m a : String)
    (msgs args : List String) :
    patched_assistant_output true c m = (c, []) ∧
    patched_tool_output true c msgs = (c, []) ∧
    patched_tool_error true c m = (c, []) ∧
    patched_tool_warning true c m = (c, []) ∧
    patched_ai_output true c m = (c, []) ∧
    patched_console_print true c (a :: args)
      = captureWrite c (String.intercalate " " (a :: args)) := by
  refine ⟨rfl, rfl, rfl, rfl, rfl, ?_⟩
  simp [patched_console_print]

/-- C5 counterexample: a `write` of non-whitespace text on a sink with one
registered subscriber invokes that subscriber once, but with response type
`assistant_response`, never with `output`. -/
theorem C5_counterexample :
    ((((⟨"", [], [0]⟩ : OutputCapture).write "hello").2.2.filter
        (fun n => n.kind == "output")).length = 0) ∧
    (((⟨"", [], [0]⟩ : OutputCapture).write "hello").2.2.length = 1) := by
  decide

/-- C5 (amended): for every text that is not purely whitespace, `write(text)`
appends an output-kind event with content equal to the text and then
synchronously invokes every currently registered subscriber exactly once with
response type `assistant_response` (not `output`) and content equal to the
text. -/
theorem C5_theorem (c : OutputCapture) (t : String)
    (h : strippedTruthy t = true) :
    (c.write t).1.messages = c.messages ++ [⟨"output", t⟩] ∧
    (c.write t).2.2 = c.callbacks.map
      (fun cb => (⟨cb, "assistant_response", t⟩ : Notification)) :=
  ⟨write_messages_pos c h, write_notes_pos c h⟩

/-- C5 witness: the amended property at a concrete sink and text. -/
theorem C5_witness :
    ((⟨"", [], [3]⟩ : OutputCapture).write "hi").1.messages
        = [⟨"output", "hi"⟩] ∧
    ((⟨"", [], [3]⟩ : OutputCapture).write "hi").2.2
        = [⟨3, "assistant_response", "hi"⟩] :=
  C5_theorem ⟨"", [], [3]⟩ "hi" (by decide)

/-- C6: when the re-entrancy flag is already set, the replacement low-level
write handler returns immediately with the expected byte count, leaves the
sink untouched, and invokes no subscriber, capping re-entrant capture. -/
theorem C6_theorem (c : OutputCapture) (t : String) :
    patched_stdout_write true c t = (c, t.length, []) := rfl

/-- C8: after `clear()`, `getOutput()` is empty and the event sequence is
empty, while the registered subscriber list is unchanged. -/
theorem C8_theorem (c : OutputCapture) :
    c.clear.get_output = "" ∧
    c.clear.get_messages = [] ∧
    c.clear.callbacks = c.callbacks :=
  ⟨rfl, rfl, rfl⟩

/-- C9: `write(text)` always appends the text to the internal buffer and
returns the number of characters of the text; when the text is non-empty but
purely whitespace, no event is appended and no subscriber is invoked. -/
theorem C9_theorem (c : OutputCapture) (t : String) :
    (c.write t).1.buffer = c.buffer ++ t ∧
    (c.write t).2.1 = t.length ∧
    (t ≠ "" → strippedTruthy t = false →
      (c.write t).1.messages = c.messages ∧ (c.write t).2.2 = []) :=
  ⟨write_buffer c t, write_len c t,
    fun _ hws => ⟨write_messages_neg c hws, write_notes_neg c hws⟩⟩

/-- C9 witness: a non-empty pure-whitespace write at a concrete sink. -/
theorem C9_witness :
    (OutputCapture.init.write " ").1.buffer = "" ++ " " ∧
    (OutputCapture.init.write " ").2.1 = String.length " " ∧
    ((OutputCapture.init.write " ").1.messages = ([] : List OutputEvent) ∧
      (OutputCapture.init.write " ").2.2 = []) := by
  have h := C9_theorem OutputCapture.init " "
  exact ⟨h.1, h.2.1, h.2.2 (by decide) (by decide)⟩

/-- C3: for every invocation through the callback-streaming or async-streaming
entry point, whatever the engine outcome, a subscriber registered exactly once
for the invocation receives exactly one completion notification, and it is the
last notification delivered to it for that invocation. -/
theorem C3_theorem (w : StreamingAiderWrapper) (s : EngineScript)
    (rcb : Option Nat) (c : Nat)
    (hone : (regList w rcb).count c = 1) :
    (∃ pre,
      ((run_with_streaming_callback w s rcb).2.2.filter (fun n => n.cb == c))
        = pre ++ [completionNote c]
      ∧ ∀ n ∈ pre, n.kind ≠ "completion") ∧
    (∃ pre,
      ((run_with_streaming_async w s rcb).2.2.filter (fun n => n.cb == c))
        = pre ++ [completionNote c]
      ∧ ∀ n ∈ pre, n.kind ≠ "completion") := by
  obtain ⟨-, -, htr⟩ := streaming_components w s rcb
  have hcomp : ((regList w rcb).map completionNote).filter (fun n => n.cb == c)
      = [completionNote c] := by
    rw [List.map_filter]
    have hfun : ((fun n => n.cb == c) ∘ completionNote) = (fun x => x == c) := by
      funext x
      simp [completionNote, Function.comp]
    rw [hfun, List.filter_beq, hone]
    rfl
  have hpre : ∀ n ∈ ((s.writes.filter strippedTruthy).flatMap
      (fun t => (w.output_capture.callbacks ++ regList w rcb).map
        (fun cb => (⟨cb, "assistant_response", t⟩ : Notification)))).filter
        (fun n => n.cb == c), n.kind ≠ "completion" := by
    intro n hn
    obtain ⟨t, -, hn2⟩ := List.mem_flatMap.mp (List.mem_filter.mp hn).1
    obtain ⟨cb, -, rfl⟩ := List.mem_map.mp hn2
    show ("assistant_response" : String) ≠ "completion"
    decide
  refine ⟨⟨_, ?_, hpre⟩, ?_⟩
  · rw [htr, List.filter_append, hcomp]
  · rw [run_with_streaming_async_eq]
    exact ⟨_, by rw [htr, List.filter_append, hcomp], hpre⟩

/-- C3 witness: a fresh wrapper, a one-write succeeding engine script, and one
registered subscriber. -/
theorem C3_witness :
    (∃ pre,
      ((run_with_streaming_callback ⟨"m", OutputCapture.init, []⟩
          ⟨["a"], .ok "r"⟩ (some 5)).2.2.filter (fun n => n.cb == 5))
        = pre ++ [completionNote 5]
      ∧ ∀ n ∈ pre, n.kind ≠ "completion") ∧
    (∃ pre,
      ((run_with_streaming_async ⟨"m", OutputCapture.init, []⟩
          ⟨["a"], .ok "r"⟩ (some 5)).2.2.filter (fun n => n.cb == 5))
        = pre ++ [completionNote 5]
      ∧ ∀ n ∈ pre, n.kind ≠ "completion") :=
  C3_theorem ⟨"m", OutputCapture.init, []⟩ ⟨["a"], .ok "r"⟩ (some 5) 5 (by decide)

/-- C4: when the engine call raises, `run_with_capture` still returns a result
of the same shape as the success result, with success false, error set to the
exception message, payload absent, and the capture fields read from whatever
the sink held after the pre-failure writes — identical to what a succeeding
run over the same writes would report. -/
theorem C4_theorem (w : StreamingAiderWrapper) (writes : List String)
    (m p : String) :
    (run_with_capture w ⟨writes, .err m⟩).2.1.success = false ∧
    (run_with_capture w ⟨writes, .err m⟩).2.1.error = some m ∧
    (run_with_capture w ⟨writes, .err m⟩).2.1.result = none ∧
    (run_with_capture w ⟨writes, .err m⟩).2.1.captured_output
      = (runEngineWrites w.output_capture.clear writes).1.get_output ∧
    (run_with_capture w ⟨writes, .err m⟩).2.1.messages
      = (runEngineWrites w.output_capture.clear writes).1.get_messages ∧
    (run_with_capture w ⟨writes, .err m⟩).2.1.model = w.model ∧
    (run_with_capture w ⟨writes, .err m⟩).2.1.captured_output
      = (run_with_capture w ⟨writes, .ok p⟩).2.1.captured_output ∧
    (run_with_capture w ⟨writes, .err m⟩).2.1.messages
      = (run_with_capture w ⟨writes, .ok p⟩).2.1.messages ∧
    (run_with_capture w ⟨writes, .err m⟩).2.1.model
      = (run_with_capture w ⟨writes, .ok p⟩).2.1.model :=
  ⟨rfl, rfl, rfl, rfl, rfl, rfl, rfl, rfl, rfl⟩

/-- C7: with no stale record attribute and a consistent console, applying the
interception patches and then calling restore reassigns every stored non-null
original handler back onto the engine I/O object and the process-wide output
channel, clears the stored record, and makes any second restore call a no-op. -/
theorem C7_theorem (io : IOWorld) (ps : Bool)
    (h1 : io.original_methods = none)
    (h2 : io.console_print.isSome = true → io.has_console = true) :
    restore_io_methods (monkey_patch_io_for_capture io ps) = io ∧
    restore_io_methods (restore_io_methods (monkey_patch_io_for_capture io ps))
      = restore_io_methods (monkey_patch_io_for_capture io ps) ∧
    (restore_io_methods (monkey_patch_io_for_capture io ps)).original_methods
      = none := by
  have hround : restore_io_methods (monkey_patch_io_for_capture io ps) = io := by
    obtain ⟨ao, oto, te, tw, ai, hc, cp, sw, ew, om, st⟩ := io
    cases om with
    | some mm => exact absurd h1 (by simp)
    | none =>
      cases cp with
      | some cph =>
        have hhc : hc = true := h2 (by simp)
        subst hhc
        cases ao <;> cases oto <;> cases te <;> cases tw <;> cases ai <;>
          cases ps <;>
          simp [monkey_patch_io_for_capture, restore_io_methods]
      | none =>
        cases ao <;> cases oto <;> cases te <;> cases tw <;> cases ai <;>
          cases ps <;> cases hc <;>
          simp [monkey_patch_io_for_capture, restore_io_methods]
  refine ⟨hround, ?_, ?_⟩
  · rw [hround]
    exact restore_of_none h1
  · rw [hround]
    exact h1

/-- C7 witness: the restoration roundtrip at a concrete, partially installed
I/O object with the stdout patch enabled. -/
theorem C7_witness :
    restore_io_methods (monkey_patch_io_for_capture ioSample true) = ioSample ∧
    restore_io_methods
        (restore_io_methods (monkey_patch_io_for_capture ioSample true))
      = restore_io_methods (monkey_patch_io_for_capture ioSample true) ∧
    (restore_io_methods
        (monkey_patch_io_for_capture ioSample true)).original_methods
      = none :=
  C7_theorem ioSample true (by decide) (by decide)

/-- C10: a callback passed to the streaming entry points is removed from the
sink subscriber list when the call returns but stays permanently in the
wrapper response-callback list; a second invocation with the same callback
registers it twice, and every captured fragment of that invocation then
notifies it once per registration, as does the completion; the async entry
point behaves identically. -/
theorem C10_theorem (model : String) (s1 s2 : EngineScript) (c : Nat) :
    (run_with_streaming_callback ⟨model, OutputCapture.init, []⟩ s1
        (some c)).1.response_callbacks = [c] ∧
    (run_with_streaming_callback ⟨model, OutputCapture.init, []⟩ s1
        (some c)).1.output_capture.callbacks = [] ∧
    (run_with_streaming_callback
        (run_with_streaming_callback ⟨model, OutputCapture.init, []⟩ s1
          (some c)).1 s2 (some c)).1.response_callbacks = [c, c] ∧
    (run_with_streaming_callback
        (run_with_streaming_callback ⟨model, OutputCapture.init, []⟩ s1
          (some c)).1 s2 (some c)).1.output_capture.callbacks = [] ∧
    (run_with_streaming_callback
        (run_with_streaming_callback ⟨model, OutputCapture.init, []⟩ s1
          (some c)).1 s2 (some c)).2.2
      = (s2.writes.filter strippedTruthy).flatMap
          (fun t => [⟨c, "assistant_response", t⟩, ⟨c, "assistant_response", t⟩])
        ++ [completionNote c, completionNote c] ∧
    run_with_streaming_async ⟨model, OutputCapture.init, []⟩ s1 (some c)
      = run_with_streaming_callback ⟨model, OutputCapture.init, []⟩ s1 (some c) := by
  obtain ⟨h1r, h1c, -⟩ :=
    streaming_components ⟨model, OutputCapture.init, []⟩ s1 (some c)
  obtain ⟨h2r, h2c, h2t⟩ :=
    streaming_components
      (run_with_streaming_callback ⟨model, OutputCapture.init, []⟩ s1
        (some c)).1 s2 (some c)
  simp [regList, OutputCapture.init] at h1r h1c
  simp [regList, OutputCapture.init, h1r, h1c] at h2r h2c h2t
  exact ⟨h1r, h1c, h2r, h2c, h2t, run_with_streaming_async_eq _ _ _⟩

end AiderBridge
